import Mathlib

/-!
Verification of the PyPuppeteer asynchronous protocol engine
(`src/puppet/constants.py`, `src/puppet/player.py`).

The Python code is shallowly embedded: JSON payloads become association
lists over a small value type, exceptions become an explicit exception
type returned through `Except`, and the stateful objects (`LazyRequest`,
the callback registry, the connection) become Lean structures threaded
explicitly through the operations that mutate them.

Parts of the repository live in `connection.py`, which is imported by
`player.py` but is not part of the sources at hand (`ClientConnection`,
`PuppeteerError`'s default error kind, `BundleMethod`,
`PacketCallbackState`).  Those are modelled from the specification and
are marked as such in their doc comments.
-/

set_option autoImplicit false

namespace Puppet

/-- Scalar JSON-ish values appearing in the payloads the claims need. -/
inductive Val where
  | vs (s : String)
  | vi (n : Int)
  | vb (b : Bool)
  deriving DecidableEq, Repr

/-- A Python `dict` with string keys, as an insertion-ordered association
list with unique keys (Python dict semantics). -/
abbrev Obj := List (String × Val)

/-- `d.get(k)`: first (unique) binding of `k`, if any. -/
def oget (o : Obj) (k : String) : Option Val :=
  match o with
  | [] => none
  | e :: t => if e.1 = k then some e.2 else oget t k

/-- `d.get(k, default)`. -/
def ogetD (o : Obj) (k : String) (d : Val) : Val :=
  (oget o k).getD d

/-- `d[k] = v`: update in place if the key exists (keeping its position,
as Python dicts do), else append. -/
def oset (o : Obj) (k : String) (v : Val) : Obj :=
  match o with
  | [] => [(k, v)]
  | e :: t => if e.1 = k then (k, v) :: t else e :: oset t k v

/-- `del d[k]`: `none` models the `KeyError` Python raises when the key
is absent. -/
def odel (o : Obj) (k : String) : Option Obj :=
  match o with
  | [] => none
  | e :: t =>
    if e.1 = k then some t else (odel t k).map (fun t' => e :: t')

/-! ## constants.py -/

/-- `PuppeteerErrorType` from `constants.py`. -/
inductive PuppeteerErrorType where
  | UNKNOWN_ERROR
  | SERVER_KILLED
  | FORMAT_ERROR
  | EXPECTED_ARGUMENT_ERROR
  | UNEXPECTED_ARGUMENT_ERROR
  | CONFIG_FILE_ERROR
  | UNKNOWN_MOD
  | UNKNOWN_CONFIG_VALUE_ERROR
  | CONNECTION_ERROR
  | WORLD_JOIN_ERROR
  | MOD_REQUIREMENT_ERROR
  | INTERNAL_EXCEPTION
  | BARITONE_ERROR
  deriving DecidableEq, Repr

open PuppeteerErrorType

/-- The `error_str_to_enum` lookup table from `constants.py`. -/
def error_str_to_enum : List (String × PuppeteerErrorType) :=
  [("expected argument", EXPECTED_ARGUMENT_ERROR),
   ("unexpected argument", UNEXPECTED_ARGUMENT_ERROR),
   ("config file missing", CONFIG_FILE_ERROR),
   ("unknown mod", UNKNOWN_MOD),
   ("cannot connect", CONNECTION_ERROR),
   ("cannot join world", WORLD_JOIN_ERROR),
   ("format", FORMAT_ERROR),
   ("mod requirement", MOD_REQUIREMENT_ERROR),
   ("exception", INTERNAL_EXCEPTION),
   ("baritone calculation", BARITONE_ERROR),
   ("unknown config item", UNKNOWN_CONFIG_VALUE_ERROR)]

/-- `str2error` from `constants.py`: `error_str_to_enum.get(error, UNKNOWN_ERROR)`. -/
def str2error (error : String) : PuppeteerErrorType :=
  (((error_str_to_enum.find? (fun p => p.1 = error)).map Prod.snd).getD UNKNOWN_ERROR)

/-- `str2error(json.get("type"))` as called in `player.py`: Python passes
`None` when the key is absent, and `None` is not a key of the table, so
the default `UNKNOWN_ERROR` results. -/
def str2errorOpt (error : Option String) : PuppeteerErrorType :=
  match error with
  | some s => str2error s
  | none => UNKNOWN_ERROR

/-! ## Wire frames and exceptions -/

/-- `ord('j')`: structured (JSON) frame tag. -/
def tagJ : Nat := 106

/-- `ord('n')`: raw-numeric frame tag. -/
def tagN : Nat := 110

/-- `ord('b')`: raw-binary frame tag. -/
def tagB : Nat := 98

/-- Data carried by a reply frame, and also the values flowing through a
`LazyRequest`'s modifier chain. -/
inductive RVal where
  | obj (o : Obj)
  | bin (bs : List Nat)
  | val (v : Val)
  deriving DecidableEq, Repr

/-- The Python exceptions the embedded operations can raise.
`puppeteer msg etype` is `PuppeteerError(msg, etype=...)`; an `etype` of
`none` is the constructor's default error kind (the default lives in
`connection.py`, which is not among the sources; the protocol-mismatch
raise in `player.py` passes no `etype`). -/
inductive PyExc where
  | puppeteer (message : String) (etype : Option PuppeteerErrorType)
  | assertionError
  | keyError (k : String)
  | typeError
  | attributeError (message : String)
  | valueError (message : String)
  deriving DecidableEq, Repr

/-- The `PuppeteerError` raised for a structured error-status reply `o`:
`PuppeteerError("Error: " + o.get("message", ""), etype=str2error(o.get("type")))`.
This exact expression appears both in `_handle_json` and in
`LazyRequest._transform_future`. -/
def serverError (o : Obj) : PyExc :=
  .puppeteer
    ("Error: " ++ (match oget o "message" with
                   | some (.vs m) => m
                   | _ => ""))
    (some (str2errorOpt (match oget o "type" with
                         | some (.vs t) => some t
                         | _ => none)))

/-- Whether a reply frame has the structured error shape: tag `'j'` and
a payload whose `status` field equals `"error"`. -/
def isErrorShape (packet_type : Nat) (data : RVal) : Bool :=
  decide (packet_type = tagJ) &&
    (match data with
     | .obj o => decide (oget o "status" = some (.vs "error"))
     | _ => false)

/-- `_handle_json` from `player.py`: assert the tag is `'j'`, raise the
mapped `PuppeteerError` when `status == "error"`, else delete the
transport-only `status` and `id` fields. -/
def handle_json (packet_type : Nat) (data : RVal) : Except PyExc RVal :=
  if packet_type ≠ tagJ then .error .assertionError
  else
    match data with
    | .obj o =>
      if oget o "status" = some (.vs "error") then
        .error (serverError o)
      else
        match odel o "status" with
        | none => .error (.keyError "status")
        | some o1 =>
          match odel o1 "id" with
          | none => .error (.keyError "id")
          | some o2 => .ok (.obj o2)
    | _ => .error .typeError

/-! ## LazyRequest -/

/-- The state of a `LazyRequest` (`player.py`).  The Python object holds
a reference to its `ClientConnection`; here that reference is the
numeric identity `conn`.  `modifier` is the result-transform chain
(`None` or a single composed closure, exactly as in the source). -/
structure LazyRequest where
  conn : Nat
  message : String
  extra : Option Obj
  raw : Bool
  required_type : Nat
  modifier : Option (RVal → RVal)
  executed : Bool

/-- `LazyRequest.__init__`: fresh request, `executed = False`. -/
def LazyRequest.mk' (conn : Nat) (message : String) (extra : Option Obj := none)
    (raw : Bool := false) (required_type : Nat := tagJ)
    (modifier : Option (RVal → RVal) := none) : LazyRequest :=
  ⟨conn, message, extra, raw, required_type, modifier, false⟩

/-- Apply an optional modifier (`if self._modifier is not None: data = self._modifier(data)`). -/
def applyMod (m : Option (RVal → RVal)) (d : RVal) : RVal :=
  match m with
  | some f => f d
  | none => d

/-- The decoding stage of `LazyRequest._transform_future` applied to an
arrived reply frame `(packet_type, data)`: raise the mapped error for a
structured error-status reply (checked before, and independently of, the
expected tag), raise on a tag mismatch, otherwise decode the payload
(`_handle_json` unless `raw`).  The modifier chain is applied on top by
`transformFuture`.  This stage depends only on `raw` and
`required_type`, never on the modifier chain. -/
def decodeReply (r : LazyRequest) (packet_type : Nat) (data : RVal) :
    Except PyExc RVal :=
  if packet_type = tagJ then
    match data with
    | .obj o =>
      if oget o "status" = some (.vs "error") then
        .error (serverError o)
      else if packet_type ≠ r.required_type then
        .error (.puppeteer "Packet type was not as expeced" none)
      else if r.raw then .ok data
      else handle_json packet_type data
    | _ => .error .typeError
  else if packet_type ≠ r.required_type then
    .error (.puppeteer "Packet type was not as expeced" none)
  else if r.raw then .ok data
  else handle_json packet_type data

/-- `LazyRequest._transform_future` applied to an arrived reply frame:
decode, then run the modifier chain
(`if self._modifier is not None: data = self._modifier(data)`) on the
success path. -/
def transformFuture (r : LazyRequest) (packet_type : Nat) (data : RVal) :
    Except PyExc RVal :=
  match decodeReply r packet_type data with
  | .error e => .error e
  | .ok d => .ok (applyMod r.modifier d)

/-- `LazyRequest.__await__` under an arrived reply: assert the request
was not already executed, mark it executed, then transform the reply.
Returns the request's new state together with the outcome.
`LazyRequest.start` is `await self` and is this same function. -/
def awaitReq (r : LazyRequest) (packet_type : Nat) (data : RVal) :
    LazyRequest × Except PyExc RVal :=
  if r.executed then (r, .error .assertionError)
  else ({ r with executed := true }, transformFuture r packet_type data)

/-- The new `LazyRequest` built by `LazyRequest.map`'s body: same
connection, message, extra, `raw` and required tag, with the modifier
chain extended by `predicate` (old chain first, then `predicate`), and
`executed = False` from `__init__`. -/
def mapMk (r : LazyRequest) (predicate : RVal → RVal) : LazyRequest :=
  { conn := r.conn
    message := r.message
    extra := r.extra
    raw := r.raw
    required_type := r.required_type
    modifier := some (fun data => predicate (applyMod r.modifier data))
    executed := false }

/-- `LazyRequest.map`: `assert not self._executed`, then return the new
request; the receiver is not mutated. -/
def LazyRequest.map (r : LazyRequest) (predicate : RVal → RVal) :
    Except PyExc LazyRequest :=
  if r.executed then .error .assertionError else .ok (mapMk r predicate)

/-! ## Connection, soft_send and bundling -/

/-- The observable state of a `ClientConnection`: the next correlation
identity, the identities of in-flight (pending) requests, and the trace
of frames actually written to the transport. -/
structure ConnState where
  nextId : Nat
  pending : List Nat
  writes : List Obj

/-- Modelled from the spec: `ClientConnection._write_packet_internal`
(`prepare_packet`) lives in `connection.py`, which is not among the
sources.  Per the spec it "builds the frame bytes without transmitting
and returns a future that resolves once a later transmission of those
bytes elicits a reply": it allocates a correlation entry and returns the
serialized frame and the future's identity, and appends nothing to the
transport's write trace. -/
def writePacketInternal (c : ConnState) (message : String) (extra : Option Obj) :
    ConnState × Obj × Nat :=
  ({ c with nextId := c.nextId + 1, pending := c.pending ++ [c.nextId] },
   [("id", .vi c.nextId), ("message", .vs message),
    ("has extra", .vb (extra ≠ none))],
   c.nextId)

/-- `LazyRequest.soft_send`: call `_write_packet_internal` and return the
serialized packet plus the future's identity.  The method body neither
reads nor writes `self._executed`; the request state is returned
unchanged. -/
def softSend (r : LazyRequest) (c : ConnState) :
    LazyRequest × ConnState × Obj × Nat :=
  (r, writePacketInternal c r.message r.extra)

/-- `n` successive `soft_send()` calls on the same request, threading
the connection state. -/
def softSendIter (r : LazyRequest) (c : ConnState) : Nat → LazyRequest × ConnState
  | 0 => (r, c)
  | n + 1 =>
    let (r', c') := softSendIter r c n
    let (r'', c'', _, _) := softSend r' c'
    (r'', c'')

/-- `BundleMethod` from `connection.py` (not among the sources).
Modelled from the spec: `INSTANT` delivers all sub-commands immediately;
`TICKLY` is the tick-sequenced policy.  The wire strings (`.value`) live
in the missing file; only their distinctness matters here. -/
inductive BundleMethod where
  | INSTANT
  | TICKLY
  deriving DecidableEq, Repr

/-- `BundleMethod.value`, modelled from the spec's "a `method` field
(policy name)". -/
def BundleMethod.value : BundleMethod → String
  | .INSTANT => "instant"
  | .TICKLY => "tickly"

/-- Run `p.soft_send()` over a list of packets left to right, as
`zip(* (p.soft_send() for p in packets))` does, collecting the
serialized packets and the future identities. -/
def softSendAll (c : ConnState) (packets : List LazyRequest) :
    ConnState × List Obj × List Nat :=
  match packets with
  | [] => (c, [], [])
  | p :: rest =>
    let (_, c1, pkt, fut) := softSend p c
    let (c2, pkts, futs) := softSendAll c1 rest
    (c2, pkt :: pkts, fut :: futs)

/-- `Player._bundle_internal`: the first statement,
`packets, futures = zip(* (p.soft_send() for p in packets))`, soft-sends
every packet (building frames, no transmission) and then unpacks the
zipped pairs into two variables — for an empty collection `zip()` yields
nothing and the unpacking raises
`ValueError: not enough values to unpack (expected 2, got 0)` before the
ticks check is ever reached, whatever the method.  Otherwise it raises
`AttributeError` if `ticks` was supplied with a method other than
`TICKLY`, else builds the outer `"bundle"` `LazyRequest`.  Returns the
connection state reached at the point the outcome is decided. -/
def bundleInternal (connId : Nat) (c : ConnState) (packets : List LazyRequest)
    (method : BundleMethod) (ticks : Option Int) :
    ConnState × Except PyExc (LazyRequest × List Nat) :=
  let s := softSendAll c packets
  match packets with
  | [] => (s.1, .error (.valueError
      "not enough values to unpack (expected 2, got 0)"))
  | _ :: _ =>
    if ticks ≠ none ∧ method ≠ .TICKLY then
      (s.1, .error (.attributeError
        "You can only set an amount of ticks using the TICKLY bundle method!"))
    else
      (s.1, .ok (LazyRequest.mk' connId "bundle"
        (some (oset (oset [("packets count", .vi s.2.1.length)]
                      "method" (.vs method.value))
                "has ticks" (.vb (ticks ≠ none)))), s.2.2))

/-! ## Callback registry and event dispatch -/

/-- `CallbackType` from `constants.py`. -/
inductive CallbackType where
  | BARITONE
  | PLAYER_POSITION
  | PLAYER_YAW
  | PLAYER_PITCH
  | PLAYER_DAMAGE
  | PLAYER_DEATH
  | PLAYER_INVENTORY
  | CHAT
  deriving DecidableEq, Repr

/-- `CallbackType.value`. -/
def CallbackType.value : CallbackType → String
  | .BARITONE => "BARITONE"
  | .PLAYER_POSITION => "PLAYER_POSITION"
  | .PLAYER_YAW => "PLAYER_YAW"
  | .PLAYER_PITCH => "PLAYER_PITCH"
  | .PLAYER_DAMAGE => "PLAYER_DAMAGE"
  | .PLAYER_DEATH => "PLAYER_DEATH"
  | .PLAYER_INVENTORY => "PLAYER_INVENTORY"
  | .CHAT => "CHAT"

/-- `PacketCallbackState` from `connection.py` (not among the sources).
Modelled from the spec and from its use in `player.py`: `DISABLED` turns
a packet callback off, the three `*_NEXT` states are one-shot ("`Next`
style callback types only trigger once"), and the remaining states are
persistent. -/
inductive PacketCallbackState where
  | DISABLED
  | NETWORK_SERIALIZED
  | NETWORK_SERIALIZED_NEXT
  | NOTIFY
  | NOTIFY_NEXT
  | OBJECT_SERIALIZED
  | OBJECT_SERIALIZED_NEXT
  deriving DecidableEq, Repr

/-- Membership of the tuple tested by `set_packet_callback`:
`callbackType in (NETWORK_SERIALIZED_NEXT, NOTIFY_NEXT, OBJECT_SERIALIZED_NEXT)`. -/
def PacketCallbackState.isNext : PacketCallbackState → Bool
  | .NETWORK_SERIALIZED_NEXT => true
  | .NOTIFY_NEXT => true
  | .OBJECT_SERIALIZED_NEXT => true
  | _ => false

/-- An entry of `Player._callbacks`.  Handlers are identified by numeric
identity.  `oneShot h` stands for the `removal_wrapper` closure that
`set_packet_callback` installs around `h` for the `Next`-style types:
its body deletes the entry and only then calls `h`. -/
inductive CbEntry where
  | persistent (h : Nat)
  | oneShot (h : Nat)
  deriving DecidableEq, Repr

/-- The callback registry of a `Player`: `_callbacks` as a keyed map and
the optional `default_callback`. -/
structure CbTable where
  entries : String → Option CbEntry
  defaultCb : Option Nat

/-- Overwrite the entry for a key (`self._callbacks[idd] = ...`). -/
def CbTable.set (t : CbTable) (k : String) (e : CbEntry) : CbTable :=
  { t with entries := fun x => if x = k then some e else t.entries x }

/-- Remove the entry for a key (`del self._callbacks[idd]`). -/
def CbTable.erase (t : CbTable) (k : String) : CbTable :=
  { t with entries := fun x => if x = k then none else t.entries x }

/-- `Player.set_packet_callback`: assert the state is not `DISABLED`;
for the `Next`-style states install the `removal_wrapper` (a one-shot
entry), else the handler itself; any prior entry for the id is
overwritten.  (The accompanying `_set_packet_callbacks` server request
carries no registry effect.) -/
def setPacketCallback (t : CbTable) (idd : String)
    (callbackType : PacketCallbackState) (callback : Nat) :
    Except PyExc CbTable :=
  if callbackType = .DISABLED then .error .assertionError
  else .ok (t.set idd
    (if callbackType.isNext then .oneShot callback else .persistent callback))

/-- `Player._callback_handler` on an incoming event: look up
`info["type"]`; fall back to the default callback when no entry exists;
drop the event when neither exists.  Invoking a `removal_wrapper`
(one-shot entry) first deletes the entry, then calls the wrapped
handler, so the returned table is the table in force at the moment the
handler runs.  The second component is the handler invoked, if any. -/
def dispatch (t : CbTable) (info : Obj) : CbTable × Option Nat :=
  match oget info "type" with
  | some (.vs key) =>
    match t.entries key with
    | some (.oneShot h) => (t.erase key, some h)
    | some (.persistent h) => (t, some h)
    | none => (t, t.defaultCb)
  | _ => (t, none)

/-! ## wait_for_callback -/

/-- The per-container-kind class attributes of `Inventory`
(`player_inventory_offset`, `container_offset`, `container_width`);
`none` models the Python class attribute `None`. -/
structure InvConfig where
  player_inventory_offset : Option Int
  container_offset : Option Int
  container_width : Option Int

/-- `Inventory.__init__`'s slot list:
`[{"id": i, **slot} for i, slot in enumerate(slot_data)]`.  The dict
literal binds `"id"` first and then merges the slot's own entries, so a
slot that itself carries an `"id"` key overwrites the index. -/
def mkSlotData (slots : List Obj) : List Obj :=
  (slots.enum).map (fun p => p.2.foldl (fun acc kv => oset acc kv.1 kv.2)
    [("id", .vi p.1)])

/-- An `Inventory` instance: its class configuration and `slot_data`. -/
structure Inventory where
  config : InvConfig
  slot_data : List Obj

/-- Build an `Inventory` as `__init__` does. -/
def Inventory.make (cfg : InvConfig) (slots : List Obj) : Inventory :=
  ⟨cfg, mkSlotData slots⟩

/-- `Inventory.get_slot`: Python list indexing on `slot_data`, with
negative indices counting from the end and `none` modelling
`IndexError`. -/
def Inventory.get_slot (inv : Inventory) (slot : Int) : Option Obj :=
  if h : 0 ≤ slot ∧ slot.toNat < inv.slot_data.length then
    some (inv.slot_data.get ⟨slot.toNat, h.2⟩)
  else if h' : slot < 0 ∧ (slot + inv.slot_data.length).toNat <
      inv.slot_data.length ∧ 0 ≤ slot + inv.slot_data.length then
    some (inv.slot_data.get ⟨(slot + inv.slot_data.length).toNat, h'.2.1⟩)
  else none

/-- `Inventory.get_inventory_slot`: assert the class defines a player
inventory, then `get_slot(row * 9 + column + player_inventory_offset)`. -/
def Inventory.get_inventory_slot (inv : Inventory) (row column : Int) :
    Except PyExc (Option Obj) :=
  match inv.config.player_inventory_offset with
  | none => .error .assertionError
  | some off => .ok (inv.get_slot (row * 9 + column + off))

/-- `Inventory.get_container_slot`: assert the class defines a container
area, then `get_slot(row * container_width + column + container_offset)`.
(`container_width` is read without a check; a configuration with an
offset but no width cannot occur among the concrete subclasses, and is
given width `0` here.) -/
def Inventory.get_container_slot (inv : Inventory) (row column : Int) :
    Except PyExc (Option Obj) :=
  match inv.config.container_offset with
  | none => .error .assertionError
  | some off =>
    .ok (inv.get_slot (row * (inv.config.container_width.getD 0) + column + off))

/-! ## Theorems -/

/-- Shared fact: a structured error-status reply is decoded to the
mapped raised error, whatever tag the request expected. -/
theorem transformFuture_error_shape (r : LazyRequest) (o : Obj)
    (h : oget o "status" = some (Val.vs "error")) :
    transformFuture r tagJ (.obj o) = .error (serverError o) := by
  simp [transformFuture, decodeReply, h]

/-- Shared fact: `str2error` maps every string absent from the lookup
table to `UNKNOWN_ERROR`. -/
theorem str2error_default (s : String)
    (h : ∀ p ∈ error_str_to_enum, p.1 ≠ s) :
    str2error s = PuppeteerErrorType.UNKNOWN_ERROR := by
  unfold str2error
  rw [List.find?_eq_none.mpr]
  · rfl
  · intro x hx
    simp [h x hx]

/-- C1: a reply frame with the structured error shape (`status = "error"`)
is decoded, for every Lazy Request, into a raised `PuppeteerError` whose
kind is the `str2error` lookup-table mapping of the reply's `type`
string and whose message incorporates the server's `message` field; it
is never returned as a normal result (awaiting raises), and every string
absent from the table maps to `UNKNOWN_ERROR`. -/
theorem claim1_structured_error_reply_raises (r : LazyRequest) (o : Obj)
    (h : oget o "status" = some (Val.vs "error")) :
    transformFuture r tagJ (.obj o) = .error (serverError o) ∧
    (r.executed = false →
      (awaitReq r tagJ (.obj o)).2 = .error (serverError o)) ∧
    (∀ t m, oget o "type" = some (Val.vs t) →
      oget o "message" = some (Val.vs m) →
      serverError o = .puppeteer ("Error: " ++ m) (some (str2error t))) ∧
    (∀ s, (∀ p ∈ error_str_to_enum, p.1 ≠ s) →
      str2error s = PuppeteerErrorType.UNKNOWN_ERROR) := by
  refine ⟨transformFuture_error_shape r o h, ?_, ?_, fun s hs => str2error_default s hs⟩
  · intro hx
    simp [awaitReq, hx, transformFuture_error_shape r o h]
  · intro t m ht hm
    simp [serverError, ht, hm, str2errorOpt]

/-- Witness for C1 at a concrete error reply whose `type` string
`"bogus"` is absent from the table. -/
theorem claim1_witness :
    transformFuture (LazyRequest.mk' 0 "ping") tagJ
        (.obj [("status", Val.vs "error"), ("message", Val.vs "boom"),
               ("type", Val.vs "bogus")]) =
      .error (.puppeteer "Error: boom"
        (some PuppeteerErrorType.UNKNOWN_ERROR)) ∧
    str2error "bogus" = PuppeteerErrorType.UNKNOWN_ERROR := by
  have H := claim1_structured_error_reply_raises (LazyRequest.mk' 0 "ping")
    [("status", Val.vs "error"), ("message", Val.vs "boom"),
     ("type", Val.vs "bogus")] (by decide)
  refine ⟨?_, H.2.2.2 "bogus" (by decide)⟩
  have h1 := H.1
  simpa [serverError, str2errorOpt, str2error, error_str_to_enum, oget] using h1

/-- C2: a reply whose tag differs from the caller-declared expected tag
and which is not the structured error shape raises the
protocol-violation `PuppeteerError("Packet type was not as expeced")`
(for a non-structured tag this holds for every payload; for a
structured tag, for every payload whose `status` is not `"error"`),
while a reply with the structured error shape raises the mapped server
error regardless of the declared expected tag. -/
theorem claim2_tag_mismatch_raises (r : LazyRequest) :
    (∀ packet_type data, packet_type ≠ tagJ → packet_type ≠ r.required_type →
      transformFuture r packet_type data =
        .error (.puppeteer "Packet type was not as expeced" none)) ∧
    (∀ o, tagJ ≠ r.required_type → oget o "status" ≠ some (Val.vs "error") →
      transformFuture r tagJ (.obj o) =
        .error (.puppeteer "Packet type was not as expeced" none)) ∧
    (∀ o, oget o "status" = some (Val.vs "error") →
      transformFuture r tagJ (.obj o) = .error (serverError o)) := by
  refine ⟨?_, ?_, fun o h => transformFuture_error_shape r o h⟩
  · intro pt data h1 h2
    simp [transformFuture, decodeReply, h1, h2]
  · intro o h1 h2
    simp [transformFuture, decodeReply, h1, h2]

/-- Witness for C2 on a request expecting the raw-numeric tag: a
raw-binary reply and a structured non-error reply both raise the
protocol-violation error, and a structured error reply raises the
mapped server error instead. -/
theorem claim2_witness :
    transformFuture ⟨0, "get block", none, true, tagN, none, false⟩ tagB
        (.bin [1]) =
      .error (.puppeteer "Packet type was not as expeced" none) ∧
    transformFuture ⟨0, "get block", none, true, tagN, none, false⟩ tagJ
        (.obj [("status", Val.vs "ok")]) =
      .error (.puppeteer "Packet type was not as expeced" none) ∧
    transformFuture ⟨0, "get block", none, true, tagN, none, false⟩ tagJ
        (.obj [("status", Val.vs "error")]) =
      .error (.puppeteer "Error: " (some PuppeteerErrorType.UNKNOWN_ERROR)) := by
  have H := claim2_tag_mismatch_raises ⟨0, "get block", none, true, tagN, none, false⟩
  refine ⟨H.1 tagB (.bin [1]) (by decide) (by decide),
          H.2.1 [("status", Val.vs "ok")] (by decide) (by decide), ?_⟩
  have h3 := H.2.2 [("status", Val.vs "error")] (by decide)
  simpa [serverError, str2errorOpt, oget] using h3

/-- C3 counterexample: `soft_send()` on an already-sent Lazy Request
does not fail fast — the method body performs no sent-check.  On a
concrete instance with `executed = true` it returns a normal result
(the serialized packet and the future identity), leaving the flag as it
was. -/
theorem claim3_counterexample :
    softSend ⟨0, "ping", none, false, tagJ, none, true⟩ ⟨0, [], []⟩ =
      (⟨0, "ping", none, false, tagJ, none, true⟩,
       ⟨1, [0], []⟩,
       [("id", Val.vi 0), ("message", Val.vs "ping"),
        ("has extra", Val.vb false)],
       0) := by
  simp [softSend, writePacketInternal]

/-- C3 (amended): awaiting (or explicitly starting, which is `await
self`) a Lazy Request that has already been sent fails fast with the
contract-violation `AssertionError`, for every instance and regardless
of any chained transforms; in particular the second of two awaits of
the same request always fails.  (`soft_send` performs no such check.) -/
theorem claim3_await_single_use (r : LazyRequest) (packet_type : Nat)
    (data : RVal) (packet_type' : Nat) (data' : RVal)
    (hx : r.executed = false) :
    (awaitReq r packet_type data).1.executed = true ∧
    (awaitReq (awaitReq r packet_type data).1 packet_type' data').2 =
      .error .assertionError ∧
    (∀ r' : LazyRequest, r'.executed = true →
      ∀ q d, (awaitReq r' q d).2 = .error .assertionError) := by
  refine ⟨by simp [awaitReq, hx], by simp [awaitReq, hx], ?_⟩
  intro r' h q d
  simp [awaitReq, h]

/-- Witness for C3 (amended) at a concrete fresh request. -/
theorem claim3_witness :
    (awaitReq (LazyRequest.mk' 0 "ping") tagJ (.obj [])).1.executed = true ∧
    (awaitReq (awaitReq (LazyRequest.mk' 0 "ping") tagJ (.obj [])).1 tagJ
        (.obj [])).2 = .error .assertionError := by
  have H := claim3_await_single_use (LazyRequest.mk' 0 "ping") tagJ (.obj [])
    tagJ (.obj []) rfl
  exact ⟨H.1, H.2.1⟩

/-- Shared fact: the decoding stage ignores the modifier chain, so a
request extended by one more transform decodes identically and applies
the new transform on top. -/
theorem transformFuture_mapMk (r : LazyRequest) (p : RVal → RVal)
    (packet_type : Nat) (data : RVal) (v : RVal)
    (h : transformFuture r packet_type data = .ok v) :
    transformFuture (mapMk r p) packet_type data = .ok (p v) := by
  unfold transformFuture at h ⊢
  rw [show decodeReply (mapMk r p) packet_type data =
        decodeReply r packet_type data from rfl]
  cases hd : decodeReply r packet_type data with
  | error e => rw [hd] at h; cases h
  | ok d =>
    rw [hd] at h
    have hv : applyMod r.modifier d = v := by
      simpa using h
    show Except.ok (applyMod (mapMk r p).modifier d) = Except.ok (p v)
    simp only [mapMk, applyMod] at hv ⊢
    rw [hv]

/-- C4: for a Lazy Request whose decode under a given reply yields the
raw result `v` (no modifier installed), chaining `.map f` and then
`.map g` succeeds (each returning the new request built by `map`'s
body) and awaiting the chained request yields `g (f v)` — the chain is
applied in chaining order; and `.map` on any already-sent request
fails with the contract-violation `AssertionError`. -/
theorem claim4_map_composes (r : LazyRequest) (f g : RVal → RVal)
    (packet_type : Nat) (data : RVal) (v : RVal)
    (hx : r.executed = false) (hm : r.modifier = none)
    (hv : transformFuture r packet_type data = .ok v) :
    r.map f = .ok (mapMk r f) ∧
    (mapMk r f).map g = .ok (mapMk (mapMk r f) g) ∧
    (awaitReq (mapMk (mapMk r f) g) packet_type data).2 = .ok (g (f v)) ∧
    (∀ r' : LazyRequest, r'.executed = true →
      ∀ p, r'.map p = .error .assertionError) := by
  refine ⟨by simp [LazyRequest.map, hx], by simp [LazyRequest.map, mapMk], ?_, ?_⟩
  · have h1 : transformFuture (mapMk r f) packet_type data = .ok (f v) :=
      transformFuture_mapMk r f packet_type data v hv
    have h2 : transformFuture (mapMk (mapMk r f) g) packet_type data =
        .ok (g (f v)) :=
      transformFuture_mapMk (mapMk r f) g packet_type data (f v) h1
    have hex : (mapMk (mapMk r f) g).executed = false := rfl
    simp [awaitReq, hex, h2]
  · intro r' h p
    simp [LazyRequest.map, h]

/-- Witness for C4: a raw request returning the raw-numeric payload,
mapped by two concrete functions, yields their composition applied to
the payload. -/
theorem claim4_witness :
    (awaitReq (mapMk (mapMk (LazyRequest.mk' 0 "get block" none true tagN none)
          (fun _ => .val (Val.vi 1)))
        (fun x => x)) tagN (.bin [7])).2 =
      .ok (.val (Val.vi 1)) := by
  have H := claim4_map_composes (LazyRequest.mk' 0 "get block" none true tagN none)
    (fun _ => .val (Val.vi 1)) (fun x => x) tagN (.bin [7]) (.bin [7])
    rfl rfl (by simp [transformFuture, decodeReply, tagN, tagJ, applyMod, LazyRequest.mk'])
  exact H.2.2.1

/-- C5: `.map(f)` on a not-yet-sent Lazy Request returns (without
failing, and without mutating the receiver — `map` is a pure function
of it) a new request sharing the same connection, command, extra
payload, `raw` flag and expected tag, whose modifier chain is the old
chain extended by `f`, and which is itself not yet sent. -/
theorem claim5_map_new_request (r : LazyRequest) (f : RVal → RVal)
    (hx : r.executed = false) :
    r.map f = .ok (mapMk r f) ∧
    (mapMk r f).conn = r.conn ∧
    (mapMk r f).message = r.message ∧
    (mapMk r f).extra = r.extra ∧
    (mapMk r f).raw = r.raw ∧
    (mapMk r f).required_type = r.required_type ∧
    (mapMk r f).modifier = some (fun d => f (applyMod r.modifier d)) ∧
    (mapMk r f).executed = false := by
  exact ⟨by simp [LazyRequest.map, hx], rfl, rfl, rfl, rfl, rfl, rfl, rfl⟩

/-- Witness for C5 at a concrete request and transform. -/
theorem claim5_witness :
    (LazyRequest.mk' 3 "ping").map (fun x => x) =
      .ok (mapMk (LazyRequest.mk' 3 "ping") (fun x => x)) ∧
    (mapMk (LazyRequest.mk' 3 "ping") (fun x => x)).message = "ping" ∧
    (mapMk (LazyRequest.mk' 3 "ping") (fun x => x)).executed = false := by
  have H := claim5_map_new_request (LazyRequest.mk' 3 "ping") (fun x => x) rfl
  exact ⟨H.1, H.2.2.1, H.2.2.2.2.2.2.2⟩

/-- C9: `soft_send()` never touches the sent flag: any number of
`soft_send` calls return the request unchanged (so it can still be
awaited afterwards exactly as if none had happened, with no fail-fast
check firing), and the flag is set by awaiting. -/
theorem claim9_soft_send_leaves_flag (r : LazyRequest) (c : ConnState)
    (n : Nat) (packet_type : Nat) (data : RVal)
    (hx : r.executed = false) :
    (softSendIter r c n).1 = r ∧
    (softSend r c).1.executed = r.executed ∧
    (awaitReq (softSendIter r c n).1 packet_type data).2 =
      transformFuture r packet_type data ∧
    (awaitReq r packet_type data).1.executed = true := by
  have hiter : ∀ m, (softSendIter r c m).1 = r := by
    intro m
    induction m with
    | zero => rfl
    | succ k ih => simp [softSendIter, softSend, ih]
  refine ⟨hiter n, rfl, ?_, by simp [awaitReq, hx]⟩
  rw [hiter n]
  simp [awaitReq, hx]

/-- Witness for C9: three `soft_send`s on a fresh request leave it
intact and awaitable. -/
theorem claim9_witness :
    (softSendIter (LazyRequest.mk' 0 "ping") ⟨0, [], []⟩ 3).1 =
      LazyRequest.mk' 0 "ping" ∧
    (awaitReq (softSendIter (LazyRequest.mk' 0 "ping") ⟨0, [], []⟩ 3).1 tagN
        (.bin [])).2 = transformFuture (LazyRequest.mk' 0 "ping") tagN (.bin []) := by
  have H := claim9_soft_send_leaves_flag (LazyRequest.mk' 0 "ping") ⟨0, [], []⟩ 3
    tagN (.bin []) rfl
  exact ⟨H.1, H.2.2.1⟩

/-- Shared fact: soft-sending a list of packets (frame preparation)
appends nothing to the transport's write trace — no network I/O
happens during bundle assembly. -/
theorem softSendAll_writes (c : ConnState) (packets : List LazyRequest) :
    (softSendAll c packets).1.writes = c.writes := by
  induction packets generalizing c with
  | nil => rfl
  | cons p rest ih =>
    simp [softSendAll, softSend, writePacketInternal, ih]

/-- C6 counterexample: for the empty collection the claim fails.  The
`zip(*...)` unpacking in `_bundle_internal` raises
`ValueError: not enough values to unpack` before the ticks check, for
every method: with `INSTANT` and a `ticks` value the raised error is
this `ValueError`, not the configuration error the claim asserts, and
with `TICKLY` and a valid `ticks` value an error is raised all the
same — the two raised errors differing from the claimed configuration
error. -/
theorem claim6_counterexample :
    (bundleInternal 0 ⟨0, [], []⟩ [] .INSTANT (some 3)).2 =
      .error (.valueError "not enough values to unpack (expected 2, got 0)") ∧
    (bundleInternal 0 ⟨0, [], []⟩ [] .TICKLY (some 3)).2 =
      .error (.valueError "not enough values to unpack (expected 2, got 0)") ∧
    (Except.error (PyExc.valueError
        "not enough values to unpack (expected 2, got 0)") :
      Except PyExc (LazyRequest × List Nat)) ≠
      .error (.attributeError
        "You can only set an amount of ticks using the TICKLY bundle method!") := by
  refine ⟨rfl, rfl, ?_⟩
  simp

/-- C6 (amended): for every *non-empty* collection of Lazy Requests,
`_bundle_internal` with a `ticks` value and a delivery policy other
than `TICKLY` raises the configuration `AttributeError` synchronously,
with the connection's write trace exactly as before the call (no
network write has occurred); with the `TICKLY` policy the same `ticks`
value raises no error and the outer `"bundle"` request is produced.
(For the empty collection the `zip(*...)` unpacking raises `ValueError`
before the ticks check, whatever the method.) -/
theorem claim6_ticks_requires_tickly (connId : Nat) (c : ConnState)
    (packets : List LazyRequest) (method : BundleMethod) (t : Int)
    (hm : method ≠ .TICKLY) (hp : packets ≠ []) :
    (bundleInternal connId c packets method (some t)).2 =
      .error (.attributeError
        "You can only set an amount of ticks using the TICKLY bundle method!") ∧
    (bundleInternal connId c packets method (some t)).1.writes = c.writes ∧
    (∀ t' : Int, ∃ pr, (bundleInternal connId c packets .TICKLY (some t')).2 =
      .ok pr) := by
  obtain ⟨p, rest, rfl⟩ : ∃ p rest, packets = p :: rest := by
    cases packets with
    | nil => exact absurd rfl hp
    | cons p rest => exact ⟨p, rest, rfl⟩
  refine ⟨by simp [bundleInternal, hm], ?_, ?_⟩
  · simp [bundleInternal, hm, softSendAll_writes]
  · intro t'
    exact ⟨_, rfl⟩

/-- Witness for C6 (amended): one packet, `INSTANT` with `ticks = 3`
errors without writing; `TICKLY` with `ticks = 3` succeeds. -/
theorem claim6_witness :
    (bundleInternal 0 ⟨0, [], []⟩ [LazyRequest.mk' 0 "ping"] .INSTANT
        (some 3)).2 =
      .error (.attributeError
        "You can only set an amount of ticks using the TICKLY bundle method!") ∧
    (bundleInternal 0 ⟨0, [], []⟩ [LazyRequest.mk' 0 "ping"] .INSTANT
        (some 3)).1.writes = [] ∧
    (∃ pr, (bundleInternal 0 ⟨0, [], []⟩ [LazyRequest.mk' 0 "ping"] .TICKLY
        (some 3)).2 = .ok pr) := by
  have H := claim6_ticks_requires_tickly 0 ⟨0, [], []⟩
    [LazyRequest.mk' 0 "ping"] .INSTANT 3 (by decide)
    (List.cons_ne_nil _ _)
  exact ⟨H.1, H.2.1, H.2.2 3⟩

/-- C7: with a one-shot (`Next`-style) callback registered for id `E`
(registration going through `set_packet_callback`, which installs the
`removal_wrapper`) and a persistent callback for a different id `E'`,
dispatching one event typed `E` invokes the one-shot handler exactly
once against the table from which its entry has already been removed
(so dispatching the same event again fires only the default route, and
a re-registration performed by the handler survives in the final
table); the persistent handler stays registered and fires on each
repeat `E'` event; and an id with no entry routes to the default
callback, the event being dropped when none is set. -/
theorem claim7_one_shot_dispatch (t : CbTable) (E E' : String) (h h' : Nat)
    (info info2 : Obj) (hne : E' ≠ E)
    (hE : oget info "type" = some (Val.vs E))
    (hE' : oget info2 "type" = some (Val.vs E')) :
    (setPacketCallback (t.set E' (.persistent h')) E .NOTIFY_NEXT h =
      .ok ((t.set E' (.persistent h')).set E (.oneShot h))) ∧
    (dispatch ((t.set E' (.persistent h')).set E (.oneShot h)) info =
      (((t.set E' (.persistent h')).set E (.oneShot h)).erase E, some h)) ∧
    ((((t.set E' (.persistent h')).set E (.oneShot h)).erase E).entries E =
      none) ∧
    (dispatch (((t.set E' (.persistent h')).set E (.oneShot h)).erase E) info =
      ((((t.set E' (.persistent h')).set E (.oneShot h)).erase E),
       t.defaultCb)) ∧
    (((((t.set E' (.persistent h')).set E (.oneShot h)).erase E).set E
        (.oneShot h)).entries E = some (.oneShot h)) ∧
    ((((t.set E' (.persistent h')).set E (.oneShot h)).erase E).entries E' =
      some (.persistent h')) ∧
    (dispatch (((t.set E' (.persistent h')).set E (.oneShot h)).erase E)
        info2 =
      ((((t.set E' (.persistent h')).set E (.oneShot h)).erase E),
       some h')) := by
  refine ⟨?_, ?_, ?_, ?_, ?_, ?_, ?_⟩
  · simp [setPacketCallback, PacketCallbackState.isNext]
  · simp [dispatch, hE, CbTable.set, CbTable.erase]
  · simp [CbTable.set, CbTable.erase]
  · simp [dispatch, hE, CbTable.set, CbTable.erase]
  · simp [CbTable.set, CbTable.erase]
  · simp [CbTable.set, CbTable.erase, hne]
  · simp [dispatch, hE', CbTable.set, CbTable.erase, hne]

/-- Witness for C7 at a concrete table (default handler `99`, one-shot
`5` on `"A"`, persistent `7` on `"B"`). -/
theorem claim7_witness :
    (dispatch ((((CbTable.mk (fun _ => none) (some 99)).set "B"
          (.persistent 7)).set "A" (.oneShot 5)))
        [("type", Val.vs "A")] =
      (((((CbTable.mk (fun _ => none) (some 99)).set "B"
          (.persistent 7)).set "A" (.oneShot 5))).erase "A", some 5)) ∧
    (dispatch (((((CbTable.mk (fun _ => none) (some 99)).set "B"
          (.persistent 7)).set "A" (.oneShot 5))).erase "A")
        [("type", Val.vs "A")] =
      ((((((CbTable.mk (fun _ => none) (some 99)).set "B"
          (.persistent 7)).set "A" (.oneShot 5))).erase "A"), some 99)) ∧
    (dispatch (((((CbTable.mk (fun _ => none) (some 99)).set "B"
          (.persistent 7)).set "A" (.oneShot 5))).erase "A")
        [("type", Val.vs "B")] =
      ((((((CbTable.mk (fun _ => none) (some 99)).set "B"
          (.persistent 7)).set "A" (.oneShot 5))).erase "A"), some 7)) := by
  have H := claim7_one_shot_dispatch (CbTable.mk (fun _ => none) (some 99))
    "A" "B" 5 7 [("type", Val.vs "A")] [("type", Val.vs "B")]
    (by decide) rfl rfl
  exact ⟨H.2.1, H.2.2.2.1, H.2.2.2.2.2.2⟩

/-- Shared fact: setting one key leaves lookups of other keys alone. -/
theorem oget_oset_ne (o : Obj) (k k' : String) (v : Val) (h : k' ≠ k) :
    oget (oset o k' v) k = oget o k := by
  induction o with
  | nil => simp [oset, oget, h]
  | cons e t ih =>
    by_cases hk : e.1 = k'
    · simp [oset, hk, oget, h]
    · simp [oset, hk, oget, ih]

/-- Shared fact: a key that `oget` misses binds no entry at all. -/
theorem oget_eq_none_forall (o : Obj) (k : String) (h : oget o k = none) :
    ∀ e ∈ o, e.1 ≠ k := by
  induction o with
  | nil => simp
  | cons e t ih =>
    intro x hx
    by_cases hk : e.1 = k
    · simp [oget, hk] at h
    · simp only [oget, if_neg hk] at h
      rcases List.mem_cons.mp hx with rfl | hxt
      · exact hk
      · exact ih h x hxt

/-- Shared fact: merging entries none of which binds `k` leaves the
lookup of `k` unchanged. -/
theorem oget_foldl_oset (entries : List (String × Val)) (acc : Obj)
    (k : String) (h : ∀ e ∈ entries, e.1 ≠ k) :
    oget (entries.foldl (fun a e => oset a e.1 e.2) acc) k = oget acc k := by
  induction entries generalizing acc with
  | nil => rfl
  | cons e t ih =>
    rw [List.foldl_cons]
    rw [ih (oset acc e.1 e.2) (fun x hx => h x (List.mem_cons_of_mem e hx))]
    exact oget_oset_ne acc k e.1 e.2 (h e (List.mem_cons_self e t))

/-- C10 counterexample: a slot that itself carries an `"id"` key
overrides the enumeration index, because the dict literal
`{"id": i, **slot}` merges the slot's entries last.  The inventory
built from the one-slot list `[{"id": 5}]` stores `slot_data[0]["id"]
= 5`, not `0`. -/
theorem claim10_counterexample :
    (Inventory.make ⟨some 9, some 0, some 9⟩
        [[("id", Val.vi 5)]]).slot_data = [[("id", Val.vi 5)]] ∧
    oget [("id", Val.vi 5)] "id" ≠ some (Val.vi 0) := by
  constructor
  · rfl
  · decide

/-- C10 (amended): for an `Inventory` built from a slot list none of
whose slots carries its own `"id"` key, the stored records satisfy
`slot_data[i]["id"] = i` for every `i < n` (unamended, a slot's own
`"id"` entry overrides the index); `slot_data` keeps the list's
length; `get_slot(i)` returns `slot_data[i]`; and with the class
offsets defined, `get_inventory_slot(row, column)` is
`get_slot(row * 9 + column + player_inventory_offset)` and
`get_container_slot(row, column)` is
`get_slot(row * container_width + column + container_offset)`. -/
theorem claim10_inventory_accessors (cfg : InvConfig) (slots : List Obj) :
    (Inventory.make cfg slots).slot_data.length = slots.length ∧
    (∀ i (hi : i < (Inventory.make cfg slots).slot_data.length),
      (∀ s ∈ slots, oget s "id" = none) →
      oget ((Inventory.make cfg slots).slot_data.get ⟨i, hi⟩) "id" =
        some (Val.vi i)) ∧
    (∀ i (hi : i < (Inventory.make cfg slots).slot_data.length),
      (Inventory.make cfg slots).get_slot i =
        some ((Inventory.make cfg slots).slot_data.get ⟨i, hi⟩)) ∧
    (∀ row col off, cfg.player_inventory_offset = some off →
      (Inventory.make cfg slots).get_inventory_slot row col =
        .ok ((Inventory.make cfg slots).get_slot (row * 9 + col + off))) ∧
    (∀ row col off w, cfg.container_offset = some off →
      cfg.container_width = some w →
      (Inventory.make cfg slots).get_container_slot row col =
        .ok ((Inventory.make cfg slots).get_slot (row * w + col + off))) := by
  refine ⟨?_, ?_, ?_, ?_, ?_⟩
  · simp [Inventory.make, mkSlotData]
  · intro i hi hid
    have hi' : i < slots.length := by
      simpa [Inventory.make, mkSlotData] using hi
    have hget : (Inventory.make cfg slots).slot_data.get ⟨i, hi⟩ =
        (slots.get ⟨i, hi'⟩).foldl (fun a e => oset a e.1 e.2)
          [("id", Val.vi i)] := by
      simp [Inventory.make, mkSlotData, List.get_eq_getElem]
    rw [hget]
    rw [oget_foldl_oset _ _ _
      (oget_eq_none_forall _ _ (hid _ (List.get_mem slots i hi')))]
    simp [oget]
  · intro i hi
    have hc : 0 ≤ (i : Int) ∧
        ((i : Int)).toNat < (Inventory.make cfg slots).slot_data.length :=
      ⟨Int.natCast_nonneg i, by simpa using hi⟩
    unfold Inventory.get_slot
    rw [dif_pos hc]
    rfl
  · intro row col off hoff
    simp [Inventory.get_inventory_slot, Inventory.make, hoff]
  · intro row col off w hoff hw
    simp [Inventory.get_container_slot, Inventory.make, hoff, hw]

/-- Witness for C10 (amended) on a `Generic9x1`-shaped configuration
and a one-slot list without an `"id"` key. -/
theorem claim10_witness :
    oget ((Inventory.make ⟨some 9, some 0, some 9⟩
        [[("kind", Val.vs "stone")]]).slot_data.get ⟨0, by decide⟩) "id" =
      some (Val.vi 0) ∧
    (Inventory.make ⟨some 9, some 0, some 9⟩
        [[("kind", Val.vs "stone")]]).get_inventory_slot 0 0 =
      .ok ((Inventory.make ⟨some 9, some 0, some 9⟩
        [[("kind", Val.vs "stone")]]).get_slot (0 * 9 + 0 + 9)) ∧
    (Inventory.make ⟨some 9, some 0, some 9⟩
        [[("kind", Val.vs "stone")]]).get_container_slot 0 0 =
      .ok ((Inventory.make ⟨some 9, some 0, some 9⟩
        [[("kind", Val.vs "stone")]]).get_slot (0 * 9 + 0 + 0)) := by
  have H := claim10_inventory_accessors ⟨some 9, some 0, some 9⟩
    [[("kind", Val.vs "stone")]]
  exact ⟨H.2.1 0 (by decide) (by decide),
         H.2.2.2.1 0 0 9 rfl,
         H.2.2.2.2 0 0 0 9 rfl rfl⟩

end Puppet
